import Mathlib

/-!
Verification of the quarry-ai payment-challenge / attestation / reputation core.

The definitions below are a shallow embedding of the Python source:
* `x402_protocol.py` — payment challenges and their verification,
* `services/sas_service.py` — attestation issuance and verification,
* `services/review_service.py` — reviews and reputation blending.

Python dicts keyed by strings are embedded as association lists, Python
numbers as `Int`/`ℚ` (all the arithmetic the claims touch is exact at these
values), and raised exceptions as `Except.error` results.  External
collaborators (the Solana RPC client, `uuid`, `datetime`, signature and
address parsing) are supplied as explicit environment records.
-/

namespace Quarry

/-! ## Association-list dictionaries (Python `dict` with string keys) -/

/-- `d[k]` lookup returning `none` when the key is absent. -/
def dictGet {α : Type} (d : List (String × α)) (k : String) : Option α :=
  match d.find? (fun p => p.1 == k) with
  | some p => some p.2
  | none => none

/-- `k in d` membership test. -/
def dictMem {α : Type} (d : List (String × α)) (k : String) : Bool :=
  (dictGet d k).isSome

/-- `del d[k]` (also used for the guarded `if k in d: del d[k]` pattern,
since deleting an absent key leaves the dictionary unchanged). -/
def dictDel {α : Type} (d : List (String × α)) (k : String) : List (String × α) :=
  d.filter (fun p => p.1 != k)

/-- `d[k] = v`:  replaces any existing binding for `k`. -/
def dictPut {α : Type} (d : List (String × α)) (k : String) (v : α) :
    List (String × α) :=
  (k, v) :: dictDel d k

/-! ## x402 payment protocol (`x402_protocol.py`) -/

/-- `int()` applied to an exact rational: truncation toward zero. -/
def pyInt (q : ℚ) : Int :=
  if 0 ≤ q then q.floor else q.ceil

def USDC_DECIMALS : Nat := 6
def SOL_DECIMALS : Nat := 9

/-- The USDC mint address (the devnet/mainnet choice made from
`settings.solana_rpc_url` does not affect any verified property). -/
def USDC_MINT : String := "EPjFWdd5AufqSSqeM2qN1xzybapC8G4wEGGkZwyTDt1v"

/-- The pending-payment dictionary entry built by `create_payment_request`.
Fields present only for one currency are `Option`s (`none` embeds an absent
dict key). -/
structure PaymentRequest where
  challenge_id : String
  recipient : String
  recipient_token_account : Option String
  amount : ℚ
  amount_tokens : Option Int
  amount_lamports : Option Int
  currency : String
  mint_address : Option String
  decimals : Nat
  resource_id : String
  description : String
  timestamp : Int
  expires_at : Int
deriving DecidableEq

/-- The process-local `pending_payments` dictionary. -/
abbrev Pending := List (String × PaymentRequest)

/-- Environment of `create_payment_request`: configuration and the
collaborators it calls out to. -/
structure CreateEnv where
  /-- `settings.payment_wallet_address` (`none` embeds unset/empty). -/
  payment_wallet_address : Option String
  /-- `int(time.time())` at the call. -/
  now : Int
  /-- `str(uuid.uuid4())` value returned for this call. -/
  freshUuid : String
  /-- `get_associated_token_address(recipient, USDC_MINT)` as a function of
  the recipient address. -/
  ata : String → String

/-- Python truthiness chain used for the recipient argument: an argument of
`None` or `""` falls back to the configured platform wallet, which itself
may be unset or empty. -/
def resolveRecipient (recipient_wallet : Option String)
    (fallback : Option String) : Option String :=
  let r := match recipient_wallet with
    | some w => if w = "" then fallback else some w
    | none => fallback
  match r with
  | some w => if w = "" then none else some w
  | none => none

/-- `X402Protocol.create_payment_request`.  A `ValueError` raised for a
missing recipient is an `Except.error`; on success the challenge is stored
in `pending_payments` and returned. -/
def create_payment_request (env : CreateEnv) (amount : ℚ)
    (resource_id description : String) (recipient_wallet : Option String)
    (currency : String) (st : Pending) :
    Except String (PaymentRequest × Pending) :=
  match resolveRecipient recipient_wallet env.payment_wallet_address with
  | none =>
      .error "No payment recipient configured. Dataset publisher must set wallet address."
  | some rw =>
      let challenge_id := env.freshUuid
      let payment_request : PaymentRequest :=
        if currency == "USDC" then
          { challenge_id := challenge_id
            recipient := rw
            recipient_token_account := some (env.ata rw)
            amount := amount
            amount_tokens := some (pyInt (amount * 10 ^ USDC_DECIMALS))
            amount_lamports := none
            currency := "USDC"
            mint_address := some USDC_MINT
            decimals := USDC_DECIMALS
            resource_id := resource_id
            description := description
            timestamp := env.now
            expires_at := env.now + 300 }
        else
          { challenge_id := challenge_id
            recipient := rw
            recipient_token_account := none
            amount := amount
            amount_tokens := none
            amount_lamports := some (pyInt (amount * 10 ^ SOL_DECIMALS))
            currency := "SOL"
            mint_address := none
            decimals := SOL_DECIMALS
            resource_id := resource_id
            description := description
            timestamp := env.now
            expires_at := env.now + 300 }
      .ok (payment_request, dictPut st challenge_id payment_request)

/-- One entry of `meta.pre_token_balances` / `meta.post_token_balances`
(`amount` is `int(entry.ui_token_amount.amount)`). -/
structure TokenBalance where
  account_index : Nat
  amount : Int
deriving DecidableEq

/-- `tx_data.transaction.meta`. -/
structure TxMeta where
  err : Bool
  pre_balances : List Int
  post_balances : List Int
  pre_token_balances : List TokenBalance
  post_token_balances : List TokenBalance
deriving DecidableEq

/-- The fetched transaction (`tx_response.value`): message account keys and
optional metadata. -/
structure TxData where
  meta : Option TxMeta
  account_keys : List String
deriving DecidableEq

/-- Result of `solana_client.get_transaction`: a raised RPC/network error,
or a response whose `value` may be `None`. -/
inductive FetchResult where
  | netError
  | value (t : Option TxData)

/-- Environment of `verify_payment`. -/
structure VerifyEnv where
  /-- `int(time.time())` at the call. -/
  now : Int
  /-- whether `Signature.from_string` succeeds on a given string. -/
  sigParseOk : String → Bool
  /-- the ledger gateway response per transaction signature. -/
  getTx : String → FetchResult

/-- Why a verification attempt returned `False`; each constructor is one
distinct `return False` site of `verify_payment` / `_verify_sol_payment` /
`_verify_usdc_payment` (`exceptionCaught` is the catch-all `except` branch,
covering signature-parse failures, RPC errors and index errors). -/
inductive Reason where
  | challengeNotFound
  | expired
  | txNotFound
  | noMeta
  | txFailed
  | recipientNotInTx
  | amountInsufficient
  | noBalanceData
  | noTokenMatch
  | noTokenBalanceData
  | exceptionCaught
deriving DecidableEq

/-- Outcome of one verification attempt; the Python function returns the
boolean `toBool` of this. -/
inductive Outcome where
  | accepted
  | rejected (r : Reason)
deriving DecidableEq

def Outcome.toBool : Outcome → Bool
  | accepted => true
  | rejected _ => false

/-- The 95%-tolerance acceptance test `balance_change >= expected * 0.95`
(exact at every value the verifier compares). -/
def meetsTolerance (balance_change expected : Int) : Prop :=
  (balance_change : ℚ) ≥ (expected : ℚ) * (95 / 100)

theorem meetsTolerance_iff (c e : Int) :
    meetsTolerance c e ↔ 95 * e ≤ 100 * c := by
  unfold meetsTolerance
  rw [ge_iff_le, mul_comm, div_mul_eq_mul_div,
    div_le_iff₀ (by norm_num : (0 : ℚ) < 100), mul_comm (c : ℚ) 100]
  exact_mod_cast Iff.rfl

instance (c e : Int) : Decidable (meetsTolerance c e) :=
  decidable_of_iff _ (meetsTolerance_iff c e).symm

/-- `_verify_sol_payment`: native-asset branch.  An out-of-range balance
index would raise `IndexError`, caught by the caller's `except` — embedded
as `exceptionCaught` with the store untouched. -/
def verify_sol_payment (meta : TxMeta) (payment_request : PaymentRequest)
    (account_keys : List String) (challenge_id : String) (st : Pending) :
    Outcome × Pending :=
  match account_keys.findIdx? (fun a => a == payment_request.recipient) with
  | none => (.rejected .recipientNotInTx, st)
  | some i =>
      if meta.post_balances ≠ [] ∧ meta.pre_balances ≠ [] then
        match meta.post_balances[i]?, meta.pre_balances[i]?,
            payment_request.amount_lamports with
        | some post, some pre, some expected_lamports =>
            if meetsTolerance (post - pre) expected_lamports then
              (.accepted, dictDel st challenge_id)
            else
              (.rejected .amountInsufficient, st)
        | _, _, _ => (.rejected .exceptionCaught, st)
      else
        (.rejected .noBalanceData, st)

/-- The inner lookup of `_verify_usdc_payment`: the pre-balance amount for
a post-balance's account index, defaulting to `0`. -/
def usdcPreAmount (pre_token_balances : List TokenBalance)
    (account_index : Nat) : Int :=
  match pre_token_balances.find? (fun b => b.account_index == account_index) with
  | some b => b.amount
  | none => 0

/-- The `for post_balance in post_token_balances` loop of
`_verify_usdc_payment`: returns the account index of the first entry whose
delta is positive and at least 95% of the expected amount.  (Note the
source never compares the entry's account to the recipient token
account.) -/
def usdcScan (pre_token_balances : List TokenBalance) (expected : Int) :
    List TokenBalance → Option Nat
  | [] => none
  | pb :: rest =>
      if pb.amount - usdcPreAmount pre_token_balances pb.account_index > 0 ∧
          meetsTolerance (pb.amount - usdcPreAmount pre_token_balances pb.account_index)
            expected then
        some pb.account_index
      else
        usdcScan pre_token_balances expected rest

/-- `_verify_usdc_payment`: fungible-token branch. -/
def verify_usdc_payment (meta : TxMeta) (payment_request : PaymentRequest)
    (st : Pending) : Outcome × Pending :=
  match payment_request.amount_tokens with
  | none => (.rejected .exceptionCaught, st)
  | some expected_amount =>
      if meta.pre_token_balances ≠ [] ∧ meta.post_token_balances ≠ [] then
        match usdcScan meta.pre_token_balances expected_amount
            meta.post_token_balances with
        | some _ => (.accepted, dictDel st payment_request.challenge_id)
        | none => (.rejected .noTokenMatch, st)
      else
        (.rejected .noTokenBalanceData, st)

/-- `X402Protocol.verify_payment`: the full verification attempt, returning
the outcome together with the pending store it leaves behind. -/
def verify_payment (env : VerifyEnv) (challenge_id transaction_signature : String)
    (st : Pending) : Outcome × Pending :=
  match dictGet st challenge_id with
  | none => (.rejected .challengeNotFound, st)
  | some payment_request =>
      if env.now > payment_request.expires_at then
        (.rejected .expired, dictDel st challenge_id)
      else if ¬ env.sigParseOk transaction_signature then
        (.rejected .exceptionCaught, st)
      else
        match env.getTx transaction_signature with
        | .netError => (.rejected .exceptionCaught, st)
        | .value none => (.rejected .txNotFound, st)
        | .value (some tx_data) =>
            match tx_data.meta with
            | none => (.rejected .noMeta, st)
            | some meta =>
                if meta.err then
                  (.rejected .txFailed, st)
                else if payment_request.currency == "USDC" then
                  verify_usdc_payment meta payment_request st
                else
                  verify_sol_payment meta payment_request tx_data.account_keys
                    challenge_id st

/-! ## Solana Attestation Service (`services/sas_service.py`)

Attestations are JSON documents anchored as transaction memos.  JSON values
are embedded as the inductive `Json`; `Json.dumps` reproduces Python's
`json.dumps(..., separators=(",", ":"))` (with `ensure_ascii`) character for
character, so size and prefix checks on the serialized memo are computed on
the real wire bytes. -/

inductive Json where
  | null
  | bool (b : Bool)
  | int (n : Int)
  | str (s : String)
  | arr (elems : List Json)
  | obj (members : List (String × Json))

/-- Lowercase hex digit. -/
def hexDigit (n : Nat) : Char :=
  if n < 10 then Char.ofNat (48 + n) else Char.ofNat (87 + n)

/-- Four-digit lowercase hex, as in a `\uXXXX` escape. -/
def hex4 (n : Nat) : List Char :=
  [hexDigit (n / 4096 % 16), hexDigit (n / 256 % 16),
   hexDigit (n / 16 % 16), hexDigit (n % 16)]

/-- How `json.dumps` (default `ensure_ascii=True`) writes one character of a
string value. -/
def escapeChar (c : Char) : List Char :=
  let n := c.toNat
  if c = '"' then ['\\', '"']
  else if c = '\\' then ['\\', '\\']
  else if c = '\t' then ['\\', 't']
  else if c = '\n' then ['\\', 'n']
  else if c = '\r' then ['\\', 'r']
  else if n = 8 then ['\\', 'b']
  else if n = 12 then ['\\', 'f']
  else if n < 32 then '\\' :: 'u' :: hex4 n
  else if n < 127 then [c]
  else if n < 65536 then '\\' :: 'u' :: hex4 n
  else
    ('\\' :: 'u' :: hex4 (55296 + (n - 65536) / 1024)) ++
      ('\\' :: 'u' :: hex4 (56320 + (n - 65536) % 1024))

/-- A JSON string literal, quotes included. -/
def encodeString (s : String) : List Char :=
  '"' :: (s.data.map escapeChar).flatten ++ ['"']

mutual

/-- `json.dumps(value, separators=(",", ":"))` as a character list. -/
def Json.dumps : Json → List Char
  | .null => "null".data
  | .bool true => "true".data
  | .bool false => "false".data
  | .int n => (toString n).data
  | .str s => encodeString s
  | .arr xs => '[' :: dumpsElems xs ++ [']']
  | .obj ms => Char.ofNat 123 :: dumpsMembers ms ++ [Char.ofNat 125]

def dumpsElems : List Json → List Char
  | [] => []
  | [x] => x.dumps
  | x :: y :: xs => x.dumps ++ ',' :: dumpsElems (y :: xs)

def dumpsMembers : List (String × Json) → List Char
  | [] => []
  | [(k, v)] => encodeString k ++ ':' :: v.dumps
  | (k, v) :: m :: ms =>
      encodeString k ++ ':' :: v.dumps ++ ',' :: dumpsMembers (m :: ms)

end

mutual

/-- Python `str()` of a decoded JSON value (the `repr`-style rendering used
by the lossy truncation fallback; string contents are rendered between
single quotes, which is `repr`'s output for the quote-free strings the
services produce). -/
def Json.pyStr : Json → List Char
  | .null => "None".data
  | .bool true => "True".data
  | .bool false => "False".data
  | .int n => (toString n).data
  | .str s => '\'' :: s.data ++ ['\'']
  | .arr xs => '[' :: pyStrElems xs ++ [']']
  | .obj ms => Char.ofNat 123 :: pyStrMembers ms ++ [Char.ofNat 125]

/-- Elements of a Python list rendering, `", "`-separated. -/
def pyStrElems : List Json → List Char
  | [] => []
  | [x] => x.pyStr
  | x :: y :: xs => x.pyStr ++ ',' :: ' ' :: pyStrElems (y :: xs)

/-- Members of a Python dict rendering, `", "`-separated. -/
def pyStrMembers : List (String × Json) → List Char
  | [] => []
  | [(k, v)] => (Json.str k).pyStr ++ ':' :: ' ' :: v.pyStr
  | (k, v) :: m :: ms =>
      (Json.str k).pyStr ++ ':' :: ' ' :: v.pyStr ++ ',' :: ' ' :: pyStrMembers (m :: ms)

end

/-- `dict.get(key)` on a decoded JSON document. -/
def Json.get? (j : Json) (k : String) : Option Json :=
  match j with
  | .obj ms => (ms.find? (fun m => m.1 == k)).map (fun m => m.2)
  | _ => none

/-- Python truthiness of a decoded JSON value. -/
def pyTruthy : Json → Bool
  | .null => false
  | .bool b => b
  | .int n => n != 0
  | .str s => s ≠ ""
  | .arr xs => ¬ xs.isEmpty
  | .obj ms => ¬ ms.isEmpty

/-- The keys of `SASService.schemas` (its fixed schema registry; the
per-schema field lists are carried by the source dict but never consulted
by the issue/verify logic embedded here). -/
def schemaNames : List String :=
  ["publisher_verified_v1", "dataset_quality_v1", "dataset_freshness_v1",
   "dataset_usage_receipt_v1", "dataset_review_v1"]

/-- Instruction data of an anchored transaction, after UTF-8 decoding:
either arbitrary non-JSON bytes (on which `json.loads` raises), or a memo
holding exactly the serialization `doc.dumps` of a JSON document (on which
`json.loads` returns `doc`). -/
inductive InstrData where
  | rawBytes (text : List Char)
  | memoJson (doc : Json)

/-- The decoded text of an instruction's data. -/
def InstrData.text : InstrData → List Char
  | .rawBytes s => s
  | .memoJson doc => doc.dumps

/-- `set_compute_unit_limit(200_000)`: opcode 2 then u32 LE. -/
def computeUnitLimitIx : InstrData :=
  .rawBytes [Char.ofNat 2, Char.ofNat 64, Char.ofNat 13, Char.ofNat 3, Char.ofNat 0]

/-- `set_compute_unit_price(1)`: opcode 3 then u64 LE. -/
def computeUnitPriceIx : InstrData :=
  .rawBytes [Char.ofNat 3, Char.ofNat 1, Char.ofNat 0, Char.ofNat 0, Char.ofNat 0,
    Char.ofNat 0, Char.ofNat 0, Char.ofNat 0, Char.ofNat 0]

/-- An anchored transaction: execution error flag and instruction list. -/
structure ChainTx where
  err : Bool
  instructions : List InstrData

/-- The anchoring ledger, keyed by transaction signature. -/
abbrev Chain := List (String × ChainTx)

/-- Environment of the SAS service: connection state, authority identity,
clock, datetime formatting/parsing, signature parsing and the signature the
next anchoring write returns. -/
structure SasEnv where
  connected : Bool
  /-- `str(self.authority_keypair.pubkey())`. -/
  authority : String
  /-- `int(datetime.utcnow().timestamp())`. -/
  nowTimestamp : Int
  /-- `datetime.utcnow().isoformat()`. -/
  nowIso : String
  /-- `datetime.fromtimestamp(t).isoformat()`. -/
  isoFormat : Int → String
  /-- `datetime.fromisoformat(s)` as a timestamp; `none` embeds a raised
  parse error. -/
  isoParse : String → Option Int
  /-- whether `Signature.from_string` succeeds on a given string. -/
  sigParseOk : String → Bool
  /-- the signature returned by `send_transaction` for this write. -/
  freshSig : String
  /-- whether `get_transaction` raises (network/RPC failure). -/
  rpcFail : Bool

/-- The attestation record `create_attestation` returns to its caller. -/
structure Attestation where
  attestation_id : String
  schema : String
  subject : String
  issuer : String
  data : Json
  issued_at : String
  expires_at : Option String
  expiry_timestamp : Option Int
  status : String
  revoked : Bool
  transaction_signature : String

/-- `expiry_timestamp`: `now + timedelta(days=d)` guarded by Python
truthiness of `expiry_days` (so `0` days means no expiry). -/
def expiryTimestamp (env : SasEnv) (expiry_days : Option Int) : Option Int :=
  match expiry_days with
  | some d => if d ≠ 0 then some (env.nowTimestamp + d * 86400) else none
  | none => none

/-- The `expires_at` ISO string stored in the payload, when any. -/
def expiryStr (env : SasEnv) (expiry_days : Option Int) : Option String :=
  (expiryTimestamp env expiry_days).map env.isoFormat

/-- The `attestation_payload` dict of `create_attestation`, with its exact
key order. -/
def attestationPayload (schema subject issuer : String) (data : Json)
    (issued_at : String) (expires_at : Option String) : Json :=
  .obj [("type", .str "quarry_attestation"),
        ("version", .str "1.0"),
        ("schema", .str schema),
        ("subject", .str subject),
        ("issuer", .str issuer),
        ("data", data),
        ("issued_at", .str issued_at),
        ("expires_at", match expires_at with | some s => .str s | none => .null)]

/-- The memo instruction `create_attestation` writes: the serialized
payload if it fits in 500 bytes, otherwise the payload with its `data`
field replaced by the truncated `str(data)[:200] + "..."`, re-serialized
and cut at 500 bytes (a cut mid-document is no longer parseable JSON, hence
`rawBytes`). -/
def memoInstruction (schema subject issuer : String) (data : Json)
    (issued_at : String) (expires_at : Option String) : InstrData :=
  let payload := attestationPayload schema subject issuer data issued_at expires_at
  if payload.dumps.length > 500 then
    let truncated : Json := .str (String.mk (data.pyStr.take 200) ++ "...")
    let payload' := attestationPayload schema subject issuer truncated issued_at expires_at
    if payload'.dumps.length ≤ 500 then .memoJson payload'
    else .rawBytes (payload'.dumps.take 500)
  else
    .memoJson payload

/-- `SASService.create_attestation`, embedding a successful anchoring write
(`send_transaction` returns `env.freshSig` and confirmation reports no
execution error); raised `Exception`s / `ValueError`s are `Except.error`s. -/
def create_attestation (env : SasEnv) (schema_name subject : String)
    (data : Json) (expiry_days : Option Int) (chain : Chain) :
    Except String (Attestation × Chain) :=
  if ¬ env.connected then .error "Not connected to Solana"
  else if ¬ schemaNames.contains schema_name then
    .error ("Unknown schema: " ++ schema_name)
  else
    let expiry_timestamp := expiryTimestamp env expiry_days
    let expires_at := expiryStr env expiry_days
    let issued_at := env.nowIso
    let ix := memoInstruction schema_name subject env.authority data issued_at expires_at
    let tx : ChainTx := { err := false
                          instructions := [computeUnitLimitIx, computeUnitPriceIx, ix] }
    let signature := env.freshSig
    .ok ({ attestation_id := signature
           schema := schema_name
           subject := subject
           issuer := env.authority
           data := data
           issued_at := issued_at
           expires_at := expires_at
           expiry_timestamp := expiry_timestamp
           status := "active"
           revoked := false
           transaction_signature := signature },
         dictPut chain signature tx)

/-- The memo prefix `verify_attestation` matches on. -/
def attPrefix : List Char :=
  Char.ofNat 123 :: "\"type\":\"quarry_attestation\"".data

/-- The instruction loop of `verify_attestation`: first instruction whose
decoded text starts with `attPrefix` and parses as JSON (a prefix match
that fails `json.loads` raises inside the loop's `try` and is skipped). -/
def findMemoJson : List InstrData → Option Json
  | [] => none
  | ix :: rest =>
      if attPrefix.isPrefixOf ix.text then
        match ix with
        | .memoJson doc => some doc
        | .rawBytes _ => findMemoJson rest
      else
        findMemoJson rest

/-- The expiry check of `verify_attestation`: `none` embeds a raised
`datetime.fromisoformat` error (a non-string truthy value raises too). -/
def checkExpiry (env : SasEnv) (attestation_data : Json) : Option Bool :=
  match attestation_data.get? "expires_at" with
  | some v =>
      if pyTruthy v then
        match v with
        | .str s => (env.isoParse s).map (fun t => env.nowTimestamp > t)
        | _ => none
      else some false
  | none => some false

/-- `issuer_verified`: `attestation_data.get("issuer") == issuer_pubkey`
(equality of an arbitrary decoded value with a string holds exactly when
the value is that string). -/
def issuerVerifiedCheck (attestation_data : Json) (authority : String) : Bool :=
  match attestation_data.get? "issuer" with
  | some (.str s) => s == authority
  | _ => false

/-- `schema_valid`: `attestation_data.get("schema") in self.schemas`. -/
def schemaValid (attestation_data : Json) : Bool :=
  match attestation_data.get? "schema" with
  | some (.str s) => schemaNames.contains s
  | _ => false

/-- A result dict of `verify_attestation` (different return sites populate
different subsets of keys; `none` embeds an absent key). -/
structure VerificationResult where
  attestation_id : String
  is_valid : Bool
  is_expired : Option Bool := none
  is_revoked : Option Bool := none
  issuer_verified : Option Bool := none
  schema_valid : Option Bool := none
  attestation_data : Option Json := none
  on_chain : Option Bool := none
  error : Option String := none

/-- `SASService.verify_attestation`.  The body's `try` converts every
internal failure into a returned dict with `is_valid = False`; only the
`raise Exception("Not connected to Solana")` before the `try` escapes to
the caller, embedded as `Except.error`. -/
def verify_attestation (env : SasEnv) (chain : Chain)
    (attestation_id : String) : Except String VerificationResult :=
  if ¬ env.connected then .error "Not connected to Solana"
  else if ¬ env.sigParseOk attestation_id then
    .ok { attestation_id := attestation_id, is_valid := false
          error := some "Invalid signature format" }
  else if env.rpcFail then
    .ok { attestation_id := attestation_id, is_valid := false
          error := some "RPC request failed" }
  else
    match dictGet chain attestation_id with
    | none =>
        .ok { attestation_id := attestation_id, is_valid := false
              is_expired := some false, is_revoked := some false
              issuer_verified := some false, schema_valid := some false
              error := some "Transaction not found on blockchain" }
    | some tx =>
        if tx.err then
          .ok { attestation_id := attestation_id, is_valid := false
                error := some "Transaction failed" }
        else
          match findMemoJson tx.instructions with
          | none =>
              .ok { attestation_id := attestation_id, is_valid := false
                    error := some "No attestation data in transaction" }
          | some attestation_data =>
              if ¬ pyTruthy attestation_data then
                .ok { attestation_id := attestation_id, is_valid := false
                      error := some "No attestation data in transaction" }
              else
                let issuer_verified := issuerVerifiedCheck attestation_data env.authority
                match checkExpiry env attestation_data with
                | none =>
                    .ok { attestation_id := attestation_id, is_valid := false
                          error := some "Invalid expiry timestamp" }
                | some is_expired =>
                    let schema_valid := schemaValid attestation_data
                    .ok { attestation_id := attestation_id
                          is_valid := issuer_verified && !is_expired && schema_valid
                          is_expired := some is_expired
                          is_revoked := some false
                          issuer_verified := some issuer_verified
                          schema_valid := some schema_valid
                          attestation_data := some attestation_data
                          on_chain := some true }

/-! ## Reviews and reputation blending (`services/review_service.py`) -/

/-- A stored usage receipt.  Modelled from the spec: `db.get_usage_receipt`
and `db.create_usage_receipt` are called by `review_service.py`,
`reputation_service.py` and `routers/reviews.py` but are not defined in
`database.py`; the spec describes a durable store of usage-receipt
attestations per (reviewer account, dataset id, dataset version). -/
structure UsageReceipt where
  reviewer_wallet : String
  dataset_id : String
  dataset_version : String
  attestation_address : String
deriving DecidableEq

/-- A row of the `reviews` table, as inserted by `db.create_review`. -/
structure ReviewRecord where
  id : String
  dataset_id : String
  dataset_version : String
  reviewer_wallet : String
  rating : Int
  review_text : String
  review_text_cid : String
  usage_receipt_attestation : String
  review_attestation_id : String
  helpful_count : Int
deriving DecidableEq

/-- The durable store the review flow touches. -/
structure Db where
  usage_receipts : List UsageReceipt
  reviews : List ReviewRecord
deriving DecidableEq

/-- Modelled from the spec: `db.get_usage_receipt(wallet, dataset_id,
dataset_version)` — the usage-receipt record for that wallet and exact
dataset+version, if one exists (the definition itself is missing from
`database.py`). -/
def get_usage_receipt (db : Db) (reviewer_wallet dataset_id dataset_version : String) :
    Option UsageReceipt :=
  db.usage_receipts.find? (fun r =>
    r.reviewer_wallet == reviewer_wallet && r.dataset_id == dataset_id &&
      r.dataset_version == dataset_version)

/-- `db.get_review_by_wallet_and_dataset`: `SELECT * FROM reviews WHERE
reviewer_wallet = ? AND dataset_id = ? AND dataset_version = ?`. -/
def get_review_by_wallet_and_dataset (db : Db)
    (reviewer_wallet dataset_id dataset_version : String) : Option ReviewRecord :=
  db.reviews.find? (fun r =>
    r.reviewer_wallet == reviewer_wallet && r.dataset_id == dataset_id &&
      r.dataset_version == dataset_version)

/-- `db.create_review`: `INSERT INTO reviews ...`. -/
def db_create_review (db : Db) (r : ReviewRecord) : Db :=
  { db with reviews := db.reviews ++ [r] }

/-- External values consumed by one `create_review` call: the generated
review id, the IPFS CID of the uploaded review text, and the id of the
review attestation minted on-chain. -/
structure ReviewEnv where
  freshReviewId : String
  review_text_cid : String
  review_attestation_id : String

/-- `ReviewService.create_review`.  Raised `ValueError`s are
`Except.error`s (so the caller's store is untouched on failure); the
rating-range check is the `ValueError` raised inside
`sas_service.create_review_attestation` before the database insert.  The
reputation recomputation of step 6 touches only the reputation record and
is embedded separately as `combined_score`. -/
def create_review (env : ReviewEnv) (db : Db)
    (dataset_id dataset_version reviewer_wallet : String) (rating : Int)
    (review_text usage_receipt_attestation : String) :
    Except String (ReviewRecord × Db) :=
  match get_usage_receipt db reviewer_wallet dataset_id dataset_version with
  | none => .error "You must purchase data from this dataset before reviewing it."
  | some _ =>
      match get_review_by_wallet_and_dataset db reviewer_wallet dataset_id
          dataset_version with
      | some _ =>
          .error "You have already reviewed this dataset version. You can update your review instead."
      | none =>
          if ¬ (1 ≤ rating ∧ rating ≤ 5) then
            .error "Rating must be between 1 and 5"
          else
            let review_record : ReviewRecord :=
              { id := env.freshReviewId
                dataset_id := dataset_id
                dataset_version := dataset_version
                reviewer_wallet := reviewer_wallet
                rating := rating
                review_text := review_text
                review_text_cid := env.review_text_cid
                usage_receipt_attestation := usage_receipt_attestation
                review_attestation_id := env.review_attestation_id
                helpful_count := 0 }
            .ok (review_record, db_create_review db review_record)

/-- `review_weight = min(0.4, 0.1 + (total_reviews * 0.03))` from
`_update_dataset_reputation_with_review`. -/
def review_weight (total_reviews : ℕ) : ℚ :=
  min (0.4 : ℚ) (0.1 + (total_reviews * 0.03))

/-- `user_score = (user_rating / 5.0) * 100`. -/
def user_score (user_rating : ℚ) : ℚ :=
  user_rating / 5 * 100

/-- `combined_score = (automated_score * automated_weight) + (user_score *
review_weight)` with `automated_weight = 1.0 - review_weight`. -/
def combined_score (automated_score user_rating : ℚ) (total_reviews : ℕ) : ℚ :=
  automated_score * (1 - review_weight total_reviews) +
    user_score user_rating * review_weight total_reviews

/-- The key under which reviews must be unique. -/
def reviewKey (r : ReviewRecord) : String × String × String :=
  (r.reviewer_wallet, r.dataset_id, r.dataset_version)

/-- Store invariant: review keys are pairwise distinct and every review is
backed by a usage receipt of the same wallet for the same
dataset+version. -/
def DbInv (db : Db) : Prop :=
  db.reviews.Pairwise (fun r r' => reviewKey r ≠ reviewKey r') ∧
    ∀ r ∈ db.reviews,
      (get_usage_receipt db r.reviewer_wallet r.dataset_id r.dataset_version).isSome

/-! ## Dictionary lemmas -/

theorem dictGet_dictPut_self {α : Type} (d : List (String × α)) (k : String) (v : α) :
    dictGet (dictPut d k v) k = some v := by
  simp [dictGet, dictPut, List.find?]

theorem dictGet_dictDel_self {α : Type} (d : List (String × α)) (k : String) :
    dictGet (dictDel d k) k = none := by
  have h : (dictDel d k).find? (fun p => p.1 == k) = none := by
    rw [List.find?_eq_none]
    intro x hx
    simp only [dictDel, List.mem_filter, bne_iff_ne, ne_eq] at hx
    simp [hx.2]
  simp [dictGet, h]

/-! ## Claims about the payment verifier -/

/-- Every `return False` site of `_verify_sol_payment` leaves the pending
store unchanged; only acceptance deletes the challenge. -/
theorem verify_sol_payment_snd (meta : TxMeta) (pr : PaymentRequest)
    (keys : List String) (cid : String) (st : Pending) (out : Outcome)
    (st' : Pending) (hv : verify_sol_payment meta pr keys cid st = (out, st'))
    (h : out ≠ .accepted) : st' = st := by
  unfold verify_sol_payment at hv
  split at hv
  · exact (Prod.mk.injEq _ _ _ _ ▸ hv).2.symm
  · split at hv
    · split at hv
      · split at hv
        · exact absurd ((Prod.mk.injEq _ _ _ _ ▸ hv).1.symm) h
        · exact (Prod.mk.injEq _ _ _ _ ▸ hv).2.symm
      · exact (Prod.mk.injEq _ _ _ _ ▸ hv).2.symm
    · exact (Prod.mk.injEq _ _ _ _ ▸ hv).2.symm

/-- Every `return False` site of `_verify_usdc_payment` leaves the pending
store unchanged; only acceptance deletes the challenge. -/
theorem verify_usdc_payment_snd (meta : TxMeta) (pr : PaymentRequest)
    (st : Pending) (out : Outcome) (st' : Pending)
    (hv : verify_usdc_payment meta pr st = (out, st'))
    (h : out ≠ .accepted) : st' = st := by
  unfold verify_usdc_payment at hv
  split at hv
  · exact (Prod.mk.injEq _ _ _ _ ▸ hv).2.symm
  · split at hv
    · split at hv
      · exact absurd ((Prod.mk.injEq _ _ _ _ ▸ hv).1.symm) h
      · exact (Prod.mk.injEq _ _ _ _ ▸ hv).2.symm
    · exact (Prod.mk.injEq _ _ _ _ ▸ hv).2.symm

/-- C4: a verification attempt on a pending, non-expired challenge that
does not accept — whether a definitive rejection (transaction not found,
no metadata, failed transaction, recipient absent, amount insufficient,
missing balance data) or a caught exception (signature-parse failure,
RPC/network error, index error) — leaves the pending-challenge store
unchanged, so the challenge stays consumable; only acceptance removes it. -/
theorem rejection_preserves_pending (env : VerifyEnv) (st : Pending)
    (cid tsig : String) (pr : PaymentRequest)
    (hpend : dictGet st cid = some pr)
    (hexp : ¬ env.now > pr.expires_at)
    (hrej : (verify_payment env cid tsig st).1 ≠ .accepted) :
    (verify_payment env cid tsig st).2 = st := by
  rcases hv : verify_payment env cid tsig st with ⟨out, st'⟩
  rw [hv] at hrej
  simp only at hrej ⊢
  unfold verify_payment at hv
  rw [hpend] at hv
  dsimp only at hv
  rw [if_neg hexp] at hv
  split at hv
  · exact (Prod.mk.injEq _ _ _ _ ▸ hv).2.symm
  · split at hv
    · exact (Prod.mk.injEq _ _ _ _ ▸ hv).2.symm
    · exact (Prod.mk.injEq _ _ _ _ ▸ hv).2.symm
    · split at hv
      · exact (Prod.mk.injEq _ _ _ _ ▸ hv).2.symm
      · split at hv
        · exact (Prod.mk.injEq _ _ _ _ ▸ hv).2.symm
        · split at hv
          · exact verify_usdc_payment_snd _ _ _ _ _ hv hrej
          · exact verify_sol_payment_snd _ _ _ _ _ _ _ hv hrej

/-- C5: verifying a pending challenge strictly after its expiry rejects
with `Expired` — before the claimed transaction is even fetched, hence
regardless of its validity — and removes the challenge from the pending
store. -/
theorem expired_verification_rejects_and_removes (env : VerifyEnv)
    (st : Pending) (cid tsig : String) (pr : PaymentRequest)
    (hpend : dictGet st cid = some pr)
    (hexp : env.now > pr.expires_at) :
    verify_payment env cid tsig st = (.rejected .expired, dictDel st cid) ∧
      dictGet (verify_payment env cid tsig st).2 cid = none := by
  have hv : verify_payment env cid tsig st = (.rejected .expired, dictDel st cid) := by
    unfold verify_payment
    rw [hpend]
    dsimp only
    rw [if_pos hexp]
  exact ⟨hv, by rw [hv]; exact dictGet_dictDel_self st cid⟩

/-- C2: on a pending, unexpired native-asset challenge whose recipient
appears in the fetched, error-free transaction's account list, verification
accepts exactly when the recipient's post-minus-pre balance is at least
95% of the requested lamport amount, and otherwise rejects with
`AmountInsufficient`. -/
theorem native_amount_tolerance (env : VerifyEnv) (st : Pending)
    (cid tsig : String) (pr : PaymentRequest) (tx_data : TxData) (meta : TxMeta)
    (i : Nat) (post pre expected : Int)
    (hpend : dictGet st cid = some pr)
    (hsol : pr.currency = "SOL")
    (hexp : ¬ env.now > pr.expires_at)
    (hsig : env.sigParseOk tsig = true)
    (htx : env.getTx tsig = .value (some tx_data))
    (hmeta : tx_data.meta = some meta)
    (herr : meta.err = false)
    (hidx : tx_data.account_keys.findIdx? (fun a => a == pr.recipient) = some i)
    (hpost : meta.post_balances[i]? = some post)
    (hpre : meta.pre_balances[i]? = some pre)
    (hlam : pr.amount_lamports = some expected) :
    ((verify_payment env cid tsig st).1 = .accepted ↔
        meetsTolerance (post - pre) expected) ∧
      (¬ meetsTolerance (post - pre) expected →
        verify_payment env cid tsig st = (.rejected .amountInsufficient, st)) := by
  have hne : meta.post_balances ≠ [] ∧ meta.pre_balances ≠ [] := by
    constructor
    · intro h; rw [h] at hpost; simp at hpost
    · intro h; rw [h] at hpre; simp at hpre
  have hcur : (pr.currency == "USDC") = false := by
    rw [hsol]; decide
  have hv : verify_payment env cid tsig st =
      (if meetsTolerance (post - pre) expected then
        (Outcome.accepted, dictDel st cid)
      else (Outcome.rejected .amountInsufficient, st)) := by
    unfold verify_payment
    rw [hpend]
    dsimp only
    rw [if_neg hexp]
    simp only [hsig, not_true, if_false, ite_false]
    rw [htx]
    dsimp only
    rw [hmeta]
    dsimp only
    simp only [herr, Bool.false_eq_true, if_false, ite_false, hcur]
    unfold verify_sol_payment
    rw [hidx]
    dsimp only
    rw [if_pos hne, hpost, hpre, hlam]
  by_cases hge : meetsTolerance (post - pre) expected
  · rw [hv, if_pos hge]
    exact ⟨⟨fun _ => hge, fun _ => rfl⟩, fun h => absurd hge h⟩
  · rw [hv, if_neg hge]
    exact ⟨⟨fun h => Outcome.noConfusion h, fun h => absurd h hge⟩, fun _ => rfl⟩

/-- The native-asset challenge of §8's example scenario: 0.5 SOL requested,
so 500,000,000 lamports. -/
def prC2 : PaymentRequest :=
  { challenge_id := "c2", recipient := "REC", recipient_token_account := none
    amount := 1/2, amount_tokens := none, amount_lamports := some 500000000
    currency := "SOL", mint_address := none, decimals := 9
    resource_id := "res", description := "query", timestamp := 0, expires_at := 300 }

/-- Balance metadata after moving `lam` lamports to the second account. -/
def movedMeta (lam : Int) : TxMeta :=
  { err := false
    pre_balances := [1000000000, 0]
    post_balances := [1000000000 - lam, lam]
    pre_token_balances := []
    post_token_balances := [] }

/-- A fetched transaction moving `lam` lamports to `"REC"`. -/
def txMoving (lam : Int) : TxData :=
  { meta := some (movedMeta lam)
    account_keys := ["PAYER", "REC"] }

/-- Verification environment that fetches `txMoving lam`. -/
def envMoving (lam : Int) : VerifyEnv :=
  { now := 10, sigParseOk := fun _ => true
    getTx := fun _ => .value (some (txMoving lam)) }

theorem native_amount_tolerance_witness :
    (verify_payment (envMoving 480000000) "c2" "sig" [("c2", prC2)]).1 = .accepted
    ∧ verify_payment (envMoving 400000000) "c2" "sig" [("c2", prC2)]
        = (.rejected .amountInsufficient, [("c2", prC2)]) := by
  constructor
  · exact (native_amount_tolerance (envMoving 480000000) [("c2", prC2)] "c2" "sig"
      prC2 (txMoving 480000000) (movedMeta 480000000) 1 480000000 0 500000000
      rfl rfl (by decide) rfl rfl rfl rfl rfl rfl rfl rfl).1.mpr (by decide)
  · exact (native_amount_tolerance (envMoving 400000000) [("c2", prC2)] "c2" "sig"
      prC2 (txMoving 400000000) (movedMeta 400000000) 1 400000000 0 500000000
      rfl rfl (by decide) rfl rfl rfl rfl rfl rfl rfl rfl).2 (by decide)

theorem rejection_preserves_pending_witness :
    (verify_payment (envMoving 400000000) "c2" "sig" [("c2", prC2)]).2 = [("c2", prC2)] :=
  rejection_preserves_pending (envMoving 400000000) [("c2", prC2)] "c2" "sig" prC2
    rfl (by decide) (by decide)

/-- Verification environment at a time past `prC2`'s expiry. -/
def envLate : VerifyEnv :=
  { now := 301, sigParseOk := fun _ => true, getTx := fun _ => .value none }

theorem expired_verification_witness :
    verify_payment envLate "c2" "sig" [("c2", prC2)]
      = (.rejected .expired, dictDel [("c2", prC2)] "c2")
    ∧ dictGet (verify_payment envLate "c2" "sig" [("c2", prC2)]).2 "c2" = none :=
  expired_verification_rejects_and_removes envLate [("c2", prC2)] "c2" "sig" prC2
    rfl (by decide)

/-- A pending USDC challenge whose recipient's associated token account is
`"ATA_REC"`. -/
def prC1 : PaymentRequest :=
  { challenge_id := "c1", recipient := "REC", recipient_token_account := some "ATA_REC"
    amount := 1, amount_tokens := some 1000000, amount_lamports := none
    currency := "USDC", mint_address := some USDC_MINT, decimals := 6
    resource_id := "res", description := "query", timestamp := 0, expires_at := 300 }

/-- A transaction whose only token-balance delta credits an account that is
not the recipient's associated token account. -/
def txOtherAccount : TxData :=
  { meta := some { err := false
                   pre_balances := []
                   post_balances := []
                   pre_token_balances := [{ account_index := 1, amount := 0 }]
                   post_token_balances := [{ account_index := 1, amount := 1000000 }] }
    account_keys := ["PAYER", "OTHER_TOKEN_ACCOUNT"] }

/-- Verification environment fetching `txOtherAccount`. -/
def envOtherAccount : VerifyEnv :=
  { now := 10, sigParseOk := fun _ => true
    getTx := fun _ => .value (some txOtherAccount) }

/-- C1: `_verify_usdc_payment` accepts (and consumes the challenge) on a
transaction in which the recipient's associated token account appears
nowhere — its token-balance loop never compares the credited account to
`recipient_token_account`, contradicting the loop's own comments ("Find
recipient's token account", "Check if this is the recipient"), the spec's
required recipient match and the `RecipientTokenAccountNotFound`
rejection. -/
theorem usdc_accepts_unrelated_token_account :
    prC1.recipient_token_account = some "ATA_REC"
    ∧ txOtherAccount.account_keys.all (fun a => a != "ATA_REC") = true
    ∧ verify_payment envOtherAccount "c1" "sig" [("c1", prC1)] = (.accepted, []) := by
  exact ⟨rfl, by decide, rfl⟩

/-- Configuration with a platform wallet set. -/
def envCreate : CreateEnv :=
  { payment_wallet_address := some "PLATFORM", now := 1000
    freshUuid := "uuid-1", ata := fun w => w ++ "-ata" }

/-- Whether a `create_payment_request` result stored its challenge in the
pending dictionary. -/
def createStores (r : Except String (PaymentRequest × Pending)) : Bool :=
  match r with
  | .ok (pr, st') => dictMem st' pr.challenge_id
  | .error _ => false

/-- The stored challenge's requested amount, when creation succeeded. -/
def createdAmount : Except String (PaymentRequest × Pending) → Option ℚ
  | .ok (pr, _) => some pr.amount
  | .error _ => none

/-- C6 counterexample: a create request with amount `0` (≤ 0) is not
rejected — the challenge is created and stored, with amount `0`. -/
theorem create_accepts_zero_amount :
    createStores (create_payment_request envCreate 0 "res" "desc" (some "WALLET") "SOL" []) = true
    ∧ createdAmount (create_payment_request envCreate 0 "res" "desc" (some "WALLET") "SOL" [])
        = some 0 := by
  exact ⟨rfl, rfl⟩

/-- C6 (amended): `create_payment_request` validates only the recipient —
it fails (storing nothing) exactly when no recipient can be resolved; with
a recipient resolved it stores the challenge whatever the amount, so a
request with amount ≤ 0 is accepted and the stored challenge carries that
nonpositive amount. -/
theorem create_validates_only_recipient (env : CreateEnv) (amount : ℚ)
    (rid desc : String) (recipient_wallet : Option String) (cur : String)
    (st : Pending) :
    (resolveRecipient recipient_wallet env.payment_wallet_address = none →
        create_payment_request env amount rid desc recipient_wallet cur st =
          .error "No payment recipient configured. Dataset publisher must set wallet address.")
    ∧ (∀ w, resolveRecipient recipient_wallet env.payment_wallet_address = some w →
        createStores (create_payment_request env amount rid desc recipient_wallet cur st) = true
        ∧ createdAmount (create_payment_request env amount rid desc recipient_wallet cur st)
            = some amount) := by
  constructor
  · intro h
    unfold create_payment_request
    rw [h]
  · intro w h
    unfold create_payment_request
    rw [h]
    constructor
    · simp only [createStores]
      split <;> simp [dictMem, dictGet_dictPut_self]
    · simp only [createdAmount]
      split <;> rfl

theorem create_validates_only_recipient_witness :
    createStores (create_payment_request envCreate (-1) "res" "desc" none "SOL" []) = true
    ∧ createdAmount (create_payment_request envCreate (-1) "res" "desc" none "SOL" [])
        = some (-1) :=
  (create_validates_only_recipient envCreate (-1) "res" "desc" none "SOL" []).2
    "PLATFORM" (by decide)

/-! ## Claims about reputation blending and reviews -/

/-- C8: the review weight never exceeds 0.4 whatever the review count; for
a fixed review count the combined score is monotonically non-decreasing in
the average star rating; and for an automated score in [0,100] and an
average rating in [0,5] the combined score stays in [0,100]. -/
theorem combined_score_bounded_monotone (total_reviews : ℕ) (a s₁ s₂ : ℚ)
    (hs : s₁ ≤ s₂) (ha0 : 0 ≤ a) (ha1 : a ≤ 100) (hr0 : 0 ≤ s₁) (hr1 : s₁ ≤ 5) :
    review_weight total_reviews ≤ 0.4
    ∧ combined_score a s₁ total_reviews ≤ combined_score a s₂ total_reviews
    ∧ 0 ≤ combined_score a s₁ total_reviews
    ∧ combined_score a s₁ total_reviews ≤ 100 := by
  have hw1 : review_weight total_reviews ≤ 0.4 := min_le_left _ _
  have hw0 : 0 ≤ review_weight total_reviews := by
    refine le_min (by norm_num) ?_
    positivity
  have hw1' : review_weight total_reviews ≤ 1 := by
    calc review_weight total_reviews ≤ 0.4 := hw1
    _ ≤ 1 := by norm_num
  refine ⟨hw1, ?_, ?_, ?_⟩
  · unfold combined_score user_score
    nlinarith [hw0]
  · unfold combined_score user_score
    nlinarith [hw0, hw1']
  · unfold combined_score user_score
    nlinarith [hw0, hw1']

theorem combined_score_bounded_monotone_witness :
    review_weight 3 ≤ 0.4
    ∧ combined_score 80 2 3 ≤ combined_score 80 4 3
    ∧ 0 ≤ combined_score 80 2 3
    ∧ combined_score 80 2 3 ≤ 100 :=
  combined_score_bounded_monotone 3 80 2 4 (by norm_num) (by norm_num)
    (by norm_num) (by norm_num) (by norm_num)

/-- C9: under the store invariant, creating a review fails with the
already-reviewed rejection when that wallet already reviewed that exact
dataset+version, fails with the no-purchase rejection when no usage
receipt exists for that wallet and dataset+version (a failure raises, so
the caller's store is unchanged and no review is inserted), and a
successful creation preserves the invariant — at most one review per
(wallet, dataset, version) and every stored review backed by a usage
receipt. -/
theorem get_usage_receipt_db_create_review (db : Db) (r : ReviewRecord)
    (w d v : String) :
    get_usage_receipt (db_create_review db r) w d v = get_usage_receipt db w d v :=
  rfl

theorem create_review_checks (env : ReviewEnv) (db : Db)
    (dataset_id dataset_version reviewer_wallet : String) (rating : Int)
    (review_text ura : String) (hinv : DbInv db) :
    ((get_review_by_wallet_and_dataset db reviewer_wallet dataset_id dataset_version).isSome →
        create_review env db dataset_id dataset_version reviewer_wallet rating review_text ura
          = .error "You have already reviewed this dataset version. You can update your review instead.")
    ∧ (get_usage_receipt db reviewer_wallet dataset_id dataset_version = none →
        create_review env db dataset_id dataset_version reviewer_wallet rating review_text ura
          = .error "You must purchase data from this dataset before reviewing it.")
    ∧ (∀ r db',
        create_review env db dataset_id dataset_version reviewer_wallet rating review_text ura
          = .ok (r, db') → DbInv db') := by
  refine ⟨?_, ?_, ?_⟩
  · intro hrev
    rcases hr : get_review_by_wallet_and_dataset db reviewer_wallet dataset_id dataset_version
      with _ | r
    · rw [hr] at hrev; simp at hrev
    · have hmem : r ∈ db.reviews := List.mem_of_find?_eq_some hr
      have hpred := List.find?_some hr
      simp only [Bool.and_eq_true, beq_iff_eq] at hpred
      have hrec := hinv.2 r hmem
      rw [hpred.1.1, hpred.1.2, hpred.2] at hrec
      unfold create_review
      rcases hg : get_usage_receipt db reviewer_wallet dataset_id dataset_version with _ | u
      · rw [hg] at hrec; simp at hrec
      · rw [hr]
  · intro hno
    unfold create_review
    rw [hno]
  · intro r db' hok
    unfold create_review at hok
    rcases hg : get_usage_receipt db reviewer_wallet dataset_id dataset_version with _ | u
    · rw [hg] at hok; exact absurd hok (by simp)
    · rw [hg] at hok
      dsimp only at hok
      rcases hr : get_review_by_wallet_and_dataset db reviewer_wallet dataset_id dataset_version
        with _ | r0
      · rw [hr] at hok
        dsimp only at hok
        split at hok
        · exact absurd hok (by simp)
        · rw [Except.ok.injEq, Prod.mk.injEq] at hok
          obtain ⟨hrEq, hdbEq⟩ := hok
          subst hdbEq
          constructor
          · unfold db_create_review
            dsimp only
            rw [List.pairwise_append]
            refine ⟨hinv.1, List.pairwise_singleton _ _, ?_⟩
            intro x hx y hy
            simp only [List.mem_singleton] at hy
            subst hy
            intro hkey
            have hnone := List.find?_eq_none.mp hr x hx
            unfold reviewKey at hkey
            dsimp only at hkey
            rw [Prod.mk.injEq, Prod.mk.injEq] at hkey
            simp only [Bool.and_eq_true, beq_iff_eq] at hnone
            exact hnone ⟨⟨hkey.1, hkey.2.1⟩, hkey.2.2⟩
          · intro x hx
            rw [get_usage_receipt_db_create_review]
            unfold db_create_review at hx
            dsimp only at hx
            rw [List.mem_append, List.mem_singleton] at hx
            rcases hx with hx | hx
            · exact hinv.2 x hx
            · subst hx
              dsimp only
              rw [hg]
              rfl
      · rw [hr] at hok
        exact absurd hok (by simp)

/-- A store holding one usage receipt and one review backed by it. -/
def dbReviewed : Db :=
  { usage_receipts := [{ reviewer_wallet := "W", dataset_id := "D"
                         dataset_version := "v1", attestation_address := "att1" }]
    reviews := [{ id := "r1", dataset_id := "D", dataset_version := "v1"
                  reviewer_wallet := "W", rating := 5, review_text := "great"
                  review_text_cid := "cid1", usage_receipt_attestation := "att1"
                  review_attestation_id := "ratt1", helpful_count := 0 }] }

/-- External values for one review creation. -/
def envReview : ReviewEnv :=
  { freshReviewId := "r2", review_text_cid := "cid2", review_attestation_id := "ratt2" }

theorem create_review_checks_witness :
    create_review envReview dbReviewed "D" "v1" "W" 4 "good" "att1"
      = .error "You have already reviewed this dataset version. You can update your review instead." :=
  (create_review_checks envReview dbReviewed "D" "v1" "W" 4 "good" "att1"
      ⟨List.pairwise_singleton _ _, by decide⟩).1 (by decide)

/-! ## Claims about the attestation service -/

/-- The serialized attestation payload starts with the exact memo prefix
`verify_attestation` matches on: its first member is
`"type": "quarry_attestation"`. -/
theorem attPrefix_isPrefixOf_payload_dumps (schema subject issuer : String)
    (data : Json) (issued_at : String) (expires_at : Option String) :
    attPrefix.isPrefixOf
      (attestationPayload schema subject issuer data issued_at expires_at).dumps
      = true := by
  rw [List.isPrefixOf_iff_prefix]
  refine ⟨',' :: (dumpsMembers
    [("version", Json.str "1.0"),
     ("schema", Json.str schema), ("subject", Json.str subject),
     ("issuer", Json.str issuer), ("data", data),
     ("issued_at", Json.str issued_at),
     ("expires_at", match expires_at with | some s => Json.str s | none => Json.null)]
    ++ [Char.ofNat 125]), ?_⟩
  have hD : attPrefix
      = Char.ofNat 123 ::
        (encodeString "type" ++ ':' :: encodeString "quarry_attestation") := by
    decide
  rw [hD]
  show (Char.ofNat 123 ::
      (encodeString "type" ++ ':' :: encodeString "quarry_attestation")) ++
        (',' :: (dumpsMembers
          [("version", Json.str "1.0"),
           ("schema", Json.str schema), ("subject", Json.str subject),
           ("issuer", Json.str issuer), ("data", data),
           ("issued_at", Json.str issued_at),
           ("expires_at", match expires_at with | some s => Json.str s | none => Json.null)]
          ++ [Char.ofNat 125]))
      = Char.ofNat 123 ::
        (encodeString "type" ++ ':' :: (encodeString "quarry_attestation" ++
          ',' :: dumpsMembers
            [("version", Json.str "1.0"),
             ("schema", Json.str schema), ("subject", Json.str subject),
             ("issuer", Json.str issuer), ("data", data),
             ("issued_at", Json.str issued_at),
             ("expires_at", match expires_at with | some s => Json.str s | none => Json.null)]))
          ++ [Char.ofNat 125]
  simp [List.append_assoc]

/-- In the instruction list `create_attestation` anchors, the loop of
`verify_attestation` skips both compute-budget instructions and decodes the
memo document. -/
theorem findMemoJson_anchored (payload : Json)
    (hpre : attPrefix.isPrefixOf payload.dumps = true) :
    findMemoJson [computeUnitLimitIx, computeUnitPriceIx, .memoJson payload]
      = some payload := by
  have h1 : attPrefix.isPrefixOf computeUnitLimitIx.text = false := by decide
  have h2 : attPrefix.isPrefixOf computeUnitPriceIx.text = false := by decide
  have h3 : (InstrData.memoJson payload).text = payload.dumps := rfl
  simp only [findMemoJson, h1, h2, h3, hpre, Bool.false_eq_true, if_false,
    if_true, ite_false, ite_true]

/-- The decoded payload's `data` field is the issued data. -/
theorem attestationPayload_get_data (schema subject issuer : String)
    (data : Json) (issued_at : String) (expires_at : Option String) :
    (attestationPayload schema subject issuer data issued_at expires_at).get? "data"
      = some data := rfl

/-- The expiry check never raises on a payload whose `expires_at` was
produced by `create_attestation`, provided `datetime.fromisoformat` parses
what `isoformat` printed. -/
theorem checkExpiry_payload (env : SasEnv) (schema subject issuer : String)
    (data : Json) (issued_at : String) (expiry_days : Option Int)
    (hiso : ∀ t, (env.isoParse (env.isoFormat t)).isSome = true) :
    ∃ b, checkExpiry env (attestationPayload schema subject issuer data issued_at
      (expiryStr env expiry_days)) = some b := by
  have hget : (attestationPayload schema subject issuer data issued_at
      (expiryStr env expiry_days)).get? "expires_at"
      = some (match expiryStr env expiry_days with
              | some s => Json.str s
              | none => Json.null) := rfl
  unfold checkExpiry
  rw [hget]
  dsimp only
  rcases h : expiryStr env expiry_days with _ | s
  · exact ⟨false, by simp [pyTruthy]⟩
  · by_cases hs : s = ""
    · exact ⟨false, by simp [pyTruthy, hs]⟩
    · obtain ⟨t, ht⟩ : ∃ t, env.isoFormat t = s := by
        unfold expiryStr at h
        rw [Option.map_eq_some'] at h
        obtain ⟨a, _, ha⟩ := h
        exact ⟨a, ha⟩
      have hp := hiso t
      rw [ht] at hp
      rcases hq : env.isoParse s with _ | tt
      · rw [hq] at hp; simp at hp
      · exact ⟨decide (env.nowTimestamp > tt), by simp [pyTruthy, hs, hq]⟩

/-- The decoded payload a verification result carries, and its `data`
field. -/
def decodedData : Except String VerificationResult → Option Json
  | .ok r => r.attestation_data.bind (fun ad => ad.get? "data")
  | .error _ => none

/-- C7: issuing an attestation for a known schema whose serialized payload
fits the 500-byte memo budget and then verifying the returned attestation
id decodes a payload whose `data` field equals the issued data
(round-trip). -/
theorem attestation_round_trip (env : SasEnv) (chain : Chain)
    (schema subject : String) (data : Json) (expiry_days : Option Int)
    (hconn : env.connected = true)
    (hschema : schemaNames.contains schema = true)
    (hsize : (attestationPayload schema subject env.authority data env.nowIso
        (expiryStr env expiry_days)).dumps.length ≤ 500)
    (hsig : env.sigParseOk env.freshSig = true)
    (hrpc : env.rpcFail = false)
    (hiso : ∀ t, (env.isoParse (env.isoFormat t)).isSome = true) :
    ∀ att chain',
      create_attestation env schema subject data expiry_days chain = .ok (att, chain') →
      decodedData (verify_attestation env chain' att.attestation_id) = some data := by
  intro att chain' hok
  have hnc : (¬ env.connected = true) = False := by simp [hconn]
  have hmemo : memoInstruction schema subject env.authority data env.nowIso
      (expiryStr env expiry_days)
      = .memoJson (attestationPayload schema subject env.authority data env.nowIso
          (expiryStr env expiry_days)) := by
    unfold memoInstruction
    rw [if_neg (Nat.not_lt.mpr hsize)]
  unfold create_attestation at hok
  rw [if_neg (by rw [hconn]; exact not_not_intro rfl)] at hok
  rw [if_neg (by rw [hschema]; exact not_not_intro rfl)] at hok
  dsimp only at hok
  rw [hmemo] at hok
  rw [Except.ok.injEq, Prod.mk.injEq] at hok
  obtain ⟨hatt, hchain⟩ := hok
  subst hchain
  have hid : att.attestation_id = env.freshSig := by rw [← hatt]
  rw [hid]
  set payload := attestationPayload schema subject env.authority data env.nowIso
    (expiryStr env expiry_days) with hpay
  have htruthy : pyTruthy payload = true := rfl
  have hfind := findMemoJson_anchored payload
    (attPrefix_isPrefixOf_payload_dumps schema subject env.authority data env.nowIso
      (expiryStr env expiry_days))
  obtain ⟨b, hb⟩ := checkExpiry_payload env schema subject env.authority data
    env.nowIso expiry_days hiso
  unfold verify_attestation
  rw [if_neg (by rw [hconn]; exact not_not_intro rfl)]
  rw [if_neg (by rw [hsig]; exact not_not_intro rfl)]
  rw [if_neg (by rw [hrpc]; exact Bool.false_ne_true)]
  rw [dictGet_dictPut_self]
  dsimp only
  rw [if_neg (by simp)]
  rw [hfind]
  dsimp only
  rw [if_neg (by rw [htruthy]; exact not_not_intro rfl)]
  rw [← hpay] at hb
  rw [hb]
  dsimp only [decodedData]
  exact attestationPayload_get_data schema subject env.authority data env.nowIso
    (expiryStr env expiry_days)

/-- A concrete SAS environment for witnessing the round-trip. -/
def sasEnvW : SasEnv :=
  { connected := true, authority := "AUTH"
    nowTimestamp := 0, nowIso := "2026-01-01T00:00:00"
    isoFormat := fun t => "ts" ++ toString t
    isoParse := fun _ => some 0
    sigParseOk := fun _ => true
    freshSig := "sig1", rpcFail := false }

/-- Concrete issued data for the round-trip witness. -/
def c7data : Json := .obj [("quality_score", .int 92)]

set_option maxRecDepth 8000 in
theorem attestation_round_trip_witness :
    (match create_attestation sasEnvW "dataset_quality_v1" "subj" c7data (some 7) [] with
     | .ok (att, chain') =>
        decodedData (verify_attestation sasEnvW chain' att.attestation_id) = some c7data
     | .error _ => False) := by
  have h := attestation_round_trip sasEnvW [] "dataset_quality_v1" "subj" c7data (some 7)
    rfl rfl (by decide) rfl rfl (fun t => rfl)
  exact h _ _ rfl

/-- A SAS environment whose RPC connection failed to come up. -/
def sasEnvOff : SasEnv :=
  { connected := false, authority := "AUTH"
    nowTimestamp := 0, nowIso := "t0"
    isoFormat := fun t => toString t
    isoParse := fun _ => none
    sigParseOk := fun _ => true
    freshSig := "sig", rpcFail := false }

/-- C10 counterexample: when the service's connection is not established,
`verify_attestation` raises `Exception("Not connected to Solana")` before
any per-input handling — an exception does propagate to the caller, for
any input id. -/
theorem verify_attestation_raises_when_disconnected :
    verify_attestation sasEnvOff [] "abc" = .error "Not connected to Solana" := rfl

/-- C10 (amended): once the connection is established, verification never
propagates an exception: every input id yields a returned result record
(with its `is_valid` field), and `is_valid` can be `true` only when the
signature parses, the RPC call succeeds, the transaction is found and
error-free, a truthy attestation document decodes from its memo, the
issuer matches the authority, the expiry check passes, and the schema is
registered — so `is_valid` is `false` whenever any of those checks
fails. -/
theorem verify_attestation_total_when_connected (env : SasEnv) (chain : Chain)
    (attestation_id : String) (hconn : env.connected = true) :
    (∃ r, verify_attestation env chain attestation_id = .ok r)
    ∧ ∀ r, verify_attestation env chain attestation_id = .ok r →
        r.is_valid = true →
          env.sigParseOk attestation_id = true ∧ env.rpcFail = false ∧
          ∃ tx, dictGet chain attestation_id = some tx ∧ tx.err = false ∧
          ∃ ad, findMemoJson tx.instructions = some ad ∧ pyTruthy ad = true ∧
            issuerVerifiedCheck ad env.authority = true ∧
            checkExpiry env ad = some false ∧
            schemaValid ad = true := by
  constructor
  · unfold verify_attestation
    rw [if_neg (by rw [hconn]; exact not_not_intro rfl)]
    dsimp only
    repeat' split
    all_goals exact ⟨_, rfl⟩
  · intro r hr hvalid
    unfold verify_attestation at hr
    rw [if_neg (by rw [hconn]; exact not_not_intro rfl)] at hr
    dsimp only at hr
    split at hr
    · cases hr; simp at hvalid
    · rename_i hsig
      split at hr
      · cases hr; simp at hvalid
      · rename_i hrpcN
        split at hr
        · cases hr; simp at hvalid
        · rename_i tx htx
          split at hr
          · cases hr; simp at hvalid
          · rename_i herrN
            split at hr
            · cases hr; simp at hvalid
            · rename_i ad hfind
              split at hr
              · cases hr; simp at hvalid
              · rename_i htruthyN
                split at hr
                · cases hr; simp at hvalid
                · rename_i is_expired hexp
                  cases hr
                  simp only at hvalid
                  rw [Bool.and_eq_true, Bool.and_eq_true] at hvalid
                  obtain ⟨⟨hiss, hnexp⟩, hsch⟩ := hvalid
                  have hexpF : is_expired = false := by
                    cases is_expired
                    · rfl
                    · simp at hnexp
                  subst hexpF
                  have hrpcF : env.rpcFail = false := by
                    cases h2 : env.rpcFail
                    · rfl
                    · exact absurd h2 hrpcN
                  exact ⟨not_not.mp hsig, hrpcF, tx, htx,
                    by cases h3 : tx.err; exact rfl; exact absurd h3 herrN,
                    ad, hfind, not_not.mp htruthyN, hiss, hexp, hsch⟩

/-- Whether an `Except` result is a returned value rather than a raised
exception. -/
def returnsOk {ε α : Type} : Except ε α → Bool
  | .ok _ => true
  | .error _ => false

/-- The same service once its connection is up. -/
def sasEnvOn : SasEnv :=
  { sasEnvOff with connected := true }

theorem verify_attestation_total_witness :
    returnsOk (verify_attestation sasEnvOn [] "not-a-signature-tx") = true := by
  obtain ⟨r, hr⟩ :=
    (verify_attestation_total_when_connected sasEnvOn [] "not-a-signature-tx" rfl).1
  rw [hr]
  rfl

end Quarry
